import Mathlib

/-!
Verification of the student dashboard page (`src/app/student/dashboard/page.tsx`).

The file embeds the three behaviours of the page that carry logic:

* `calculateTimeRemaining` — the countdown computation inside `EnrollmentCard`'s
  effect.  JavaScript timestamps are integral millisecond counts; an invalid
  `expected_end_date` makes `new Date(s).getTime()` return `NaN`, which we model
  as `none : Option Int`.  In JavaScript every comparison with `NaN` is false,
  so the `difference > 0` guard sends a `NaN` difference to the else branch.
  On the true branch all quantities are positive, and `Math.floor` of a real
  division by a positive constant is exactly floor division on integers, which
  is Lean's `Int` division.

* `fetchEnrollments` — the loader's `try`/`catch`/`finally`.  The awaited
  supabase response is a `{data, error}` pair and the `await` itself may
  reject; both are captured by `FetchResult`.  Page state carries the two
  `useState` cells, the console log, and a counter of `setEnrollments`
  invocations so that "never invoked" is statable.

* the per-card interval timer — `calculateTimeRemaining()` runs once on mount,
  then `setInterval(calculateTimeRemaining, 60000)` re-runs it every 60000 ms
  until the effect cleanup calls `clearInterval`.  `CardSim` records the timer
  handle and the instants at which computations ran.
-/

/-- The `{weeks, days, hours, minutes}` object stored by `setTimeRemaining`.
Fields are `Int` because JavaScript numbers are signed; the claims about
non-negativity are then genuine statements about the code. -/
structure TimeRemaining where
  weeks : Int
  days : Int
  hours : Int
  minutes : Int
deriving Repr, DecidableEq

/-- `calculateTimeRemaining` from `EnrollmentCard`'s effect.  `endTime` is
`new Date(enrollment.expected_end_date).getTime()` (`none` = `NaN`), `now` is
`new Date().getTime()`.  Mirrors the source: on `difference > 0` the four
floor-divided fields, otherwise all zeros; a `NaN` difference fails the
`> 0` comparison and also lands in the else branch. -/
def calculateTimeRemaining (endTime : Option Int) (now : Int) : TimeRemaining :=
  let difference : Option Int := endTime.map (fun e => e - now)
  match difference with
  | some d =>
    if 0 < d then
      { weeks := d / (1000 * 60 * 60 * 24 * 7)
        days := d / (1000 * 60 * 60 * 24) % 7
        hours := d / (1000 * 60 * 60) % 24
        minutes := d / 1000 / 60 % 60 }
    else
      { weeks := 0, days := 0, hours := 0, minutes := 0 }
  | none => { weeks := 0, days := 0, hours := 0, minutes := 0 }

/-- Milliseconds in one minute. -/
def msPerMinute : Int := 60 * 1000

/-- Milliseconds in one hour. -/
def msPerHour : Int := 60 * 60 * 1000

/-- Milliseconds in one day. -/
def msPerDay : Int := 24 * 60 * 60 * 1000

/-- Milliseconds in one week. -/
def msPerWeek : Int := 7 * 24 * 60 * 60 * 1000

/-- The nested course record returned by the enrollment query. -/
structure Course where
  id : String
  title : String
  description : String
  duration_weeks : Int
deriving Repr, DecidableEq

/-- One enrollment record as selected by the query. -/
structure Enrollment where
  id : String
  course : Course
  start_date : String
  expected_end_date : String
  status : String
deriving Repr, DecidableEq

/-- The page state touched by `fetchEnrollments`: the two `useState` cells
(`enrollments`, `coursesLoading`), the console's error log, and an
instrumentation counter of how many times `setEnrollments` was invoked. -/
structure DashboardState where
  enrollments : List Enrollment
  coursesLoading : Bool
  consoleLog : List String
  setEnrollmentsCalls : Nat
deriving Repr, DecidableEq

/-- Initial page state: `useState<Enrollment[]>([])`, `useState(true)`. -/
def initialDashboardState : DashboardState :=
  { enrollments := [], coursesLoading := true, consoleLog := [], setEnrollmentsCalls := 0 }

/-- The `{data, error}` object a resolved supabase query returns. -/
structure SupabaseResponse where
  data : Option (List Enrollment)
  error : Option String
deriving Repr, DecidableEq

/-- Outcome of awaiting the enrollment query: the promise resolves with a
`{data, error}` response or rejects with an error. -/
inductive FetchResult where
  | resolved (r : SupabaseResponse)
  | rejected (e : String)
deriving Repr, DecidableEq

/-- A fetch outcome counts as a failure when the promise rejected or the
resolved response carries a non-null `error`. -/
def FetchResult.isFailure : FetchResult → Bool
  | .resolved r => r.error.isSome
  | .rejected _ => true

/-- The `try` block of `fetchEnrollments`: await the query (a rejection
escapes as an exception), `if (error) throw error`, then
`setEnrollments(data || [])`. -/
def fetchBody (result : FetchResult) (s : DashboardState) : Except String DashboardState :=
  match result with
  | .rejected e => .error e
  | .resolved r =>
    match r.error with
    | some e => .error e
    | none =>
      .ok { s with
        enrollments := r.data.getD []
        setEnrollmentsCalls := s.setEnrollmentsCalls + 1 }

/-- `fetchEnrollments`: run the `try` block; `catch` logs
`console.error('Error fetching enrollments:', err)`; `finally` runs
`setCoursesLoading(false)` on both paths.  Total — no error propagates. -/
def fetchEnrollments (result : FetchResult) (s : DashboardState) : DashboardState :=
  let afterTry :=
    match fetchBody result s with
    | .ok s' => s'
    | .error e => { s with consoleLog := s.consoleLog ++ ["Error fetching enrollments: " ++ e] }
  { afterTry with coursesLoading := false }

/-- The repeating timer created by `setInterval(calculateTimeRemaining, 60000)`:
its period and the instant of its next firing. -/
structure IntervalTimer where
  period : Nat
  nextFire : Nat
deriving Repr, DecidableEq

/-- Observable state of one `EnrollmentCard`'s countdown: the displayed
`timeRemaining` cell, the live interval handle (`none` once cleared), and the
instants at which `calculateTimeRemaining` ran (instrumentation for the
resource property). -/
structure CardSim where
  timeRemaining : Option TimeRemaining
  timer : Option IntervalTimer
  computeTimes : List Nat
deriving Repr, DecidableEq

/-- Mounting a card at instant `t0` runs the effect body: an immediate
`calculateTimeRemaining()` followed by `setInterval(..., 60000)`, whose first
firing is one period later. -/
def mountCard (endTime : Option Int) (t0 : Nat) : CardSim :=
  { timeRemaining := some (calculateTimeRemaining endTime (t0 : Int))
    timer := some { period := 60000, nextFire := t0 + 60000 }
    computeTimes := [t0] }

/-- One firing of the interval: if the timer is still armed, the callback
recomputes the countdown at the scheduled instant and the timer re-arms one
period later; a cleared timer never fires. -/
def fireTimer (endTime : Option Int) (s : CardSim) : CardSim :=
  match s.timer with
  | none => s
  | some tm =>
    { timeRemaining := some (calculateTimeRemaining endTime (tm.nextFire : Int))
      timer := some { period := tm.period, nextFire := tm.nextFire + tm.period }
      computeTimes := s.computeTimes ++ [tm.nextFire] }

/-- Unmounting runs the effect cleanup `clearInterval(interval)`. -/
def unmountCard (s : CardSim) : CardSim :=
  { s with timer := none }

/-- `n` successive firings of the interval. -/
def fireN (endTime : Option Int) : Nat → CardSim → CardSim
  | 0, s => s
  | n + 1, s => fireTimer endTime (fireN endTime n s)

/-- C1: for an end instant strictly after now (`difference = endDate − now > 0`
in milliseconds), the countdown returns weeks = ⌊difference / week⌋,
days = ⌊difference / day⌋ mod 7, hours = ⌊difference / hour⌋ mod 24,
minutes = ⌊difference / minute⌋ mod 60; each field is within its bound
(days < 7, hours < 24, minutes < 60) and the reconstruction
weeks·week + days·day + hours·hour + minutes·minute is at most `difference`
with a remainder below one minute; in particular a difference of exactly
14 days, 3 hours, 5 minutes yields {weeks 2, days 0, hours 3, minutes 5}. -/
theorem calculateTimeRemaining_future (e now : Int) (h : 0 < e - now) :
    (calculateTimeRemaining (some e) now).weeks = (e - now) / msPerWeek ∧
    (calculateTimeRemaining (some e) now).days = (e - now) / msPerDay % 7 ∧
    (calculateTimeRemaining (some e) now).hours = (e - now) / msPerHour % 24 ∧
    (calculateTimeRemaining (some e) now).minutes = (e - now) / msPerMinute % 60 ∧
    (calculateTimeRemaining (some e) now).days < 7 ∧
    (calculateTimeRemaining (some e) now).hours < 24 ∧
    (calculateTimeRemaining (some e) now).minutes < 60 ∧
    (calculateTimeRemaining (some e) now).weeks * msPerWeek +
      (calculateTimeRemaining (some e) now).days * msPerDay +
      (calculateTimeRemaining (some e) now).hours * msPerHour +
      (calculateTimeRemaining (some e) now).minutes * msPerMinute ≤ e - now ∧
    e - now < (calculateTimeRemaining (some e) now).weeks * msPerWeek +
      (calculateTimeRemaining (some e) now).days * msPerDay +
      (calculateTimeRemaining (some e) now).hours * msPerHour +
      (calculateTimeRemaining (some e) now).minutes * msPerMinute + msPerMinute ∧
    calculateTimeRemaining (some (14 * msPerDay + 3 * msPerHour + 5 * msPerMinute)) 0 =
      { weeks := 2, days := 0, hours := 3, minutes := 5 } := by
  refine ?_
  simp only [calculateTimeRemaining, Option.map, msPerWeek, msPerDay, msPerHour, msPerMinute,
    if_pos h]
  refine ⟨by omega, by omega, by omega, by omega, by omega, by omega, by omega,
    by omega, by omega, by decide⟩

/-- Witness for `calculateTimeRemaining_future` at a difference of exactly
14 days, 3 hours, 5 minutes (1220700000 ms) against now = 0. -/
theorem calculateTimeRemaining_future_witness :
    (0 : Int) < 1220700000 - 0 ∧
    (calculateTimeRemaining (some 1220700000) 0).weeks = ((1220700000 : Int) - 0) / msPerWeek ∧
    (calculateTimeRemaining (some 1220700000) 0).minutes =
      ((1220700000 : Int) - 0) / msPerMinute % 60 :=
  ⟨by decide, (calculateTimeRemaining_future 1220700000 0 (by decide)).1,
    (calculateTimeRemaining_future 1220700000 0 (by decide)).2.2.2.1⟩

/-- C2: for an end instant at or before now (`difference ≤ 0`), the countdown
returns exactly {0, 0, 0, 0}; in particular an end date 10 minutes in the past
yields all zeros. -/
theorem calculateTimeRemaining_past (e now : Int) (h : e - now ≤ 0) :
    calculateTimeRemaining (some e) now = { weeks := 0, days := 0, hours := 0, minutes := 0 } ∧
    calculateTimeRemaining (some 0) (10 * msPerMinute) =
      { weeks := 0, days := 0, hours := 0, minutes := 0 } := by
  constructor
  · simp only [calculateTimeRemaining, Option.map]
    rw [if_neg (by omega)]
  · decide

/-- Witness for `calculateTimeRemaining_past` at an end date 10 minutes
(600000 ms) before now. -/
theorem calculateTimeRemaining_past_witness :
    (0 : Int) - 600000 ≤ 0 ∧
    calculateTimeRemaining (some 0) 600000 = { weeks := 0, days := 0, hours := 0, minutes := 0 } :=
  ⟨by decide, (calculateTimeRemaining_past 0 600000 (by decide)).1⟩

/-- C3: every field of the computed TimeRemaining is a non-negative integer,
and as soon as `endDate − now ≤ 0` every field equals 0: the countdown is
never negative. -/
theorem calculateTimeRemaining_nonneg (e now : Int) :
    0 ≤ (calculateTimeRemaining (some e) now).weeks ∧
    0 ≤ (calculateTimeRemaining (some e) now).days ∧
    0 ≤ (calculateTimeRemaining (some e) now).hours ∧
    0 ≤ (calculateTimeRemaining (some e) now).minutes ∧
    (e - now ≤ 0 →
      calculateTimeRemaining (some e) now =
        { weeks := 0, days := 0, hours := 0, minutes := 0 }) := by
  simp only [calculateTimeRemaining, Option.map]
  by_cases h : 0 < e - now
  · rw [if_pos h]
    dsimp only
    exact ⟨by omega, by omega, by omega, by omega, fun hle => absurd h (by omega)⟩
  · rw [if_neg h]
    exact ⟨le_refl 0, le_refl 0, le_refl 0, le_refl 0, fun _ => rfl⟩

/-- Witness for `calculateTimeRemaining_nonneg` at e = 0, now = 600000. -/
theorem calculateTimeRemaining_nonneg_witness :
    0 ≤ (calculateTimeRemaining (some 0) 600000).weeks ∧
    ((0 : Int) - 600000 ≤ 0 →
      calculateTimeRemaining (some 0) 600000 =
        { weeks := 0, days := 0, hours := 0, minutes := 0 }) :=
  ⟨(calculateTimeRemaining_nonneg 0 600000).1,
    (calculateTimeRemaining_nonneg 0 600000).2.2.2.2⟩

/-- C4: the countdown computation is deterministic in its inputs — two
invocations with the same end timestamp at the same instant yield identical
TimeRemaining results (the computation reads nothing but its two inputs). -/
theorem calculateTimeRemaining_deterministic (e₁ e₂ : Option Int) (n₁ n₂ : Int)
    (he : e₁ = e₂) (hn : n₁ = n₂) :
    calculateTimeRemaining e₁ n₁ = calculateTimeRemaining e₂ n₂ := by
  rw [he, hn]

/-- Witness for `calculateTimeRemaining_deterministic` at a concrete instant. -/
theorem calculateTimeRemaining_deterministic_witness :
    calculateTimeRemaining (some 1220700000) 3 = calculateTimeRemaining (some 1220700000) 3 :=
  calculateTimeRemaining_deterministic (some 1220700000) (some 1220700000) 3 3 rfl rfl

/-- C9: an `expected_end_date` that does not parse (`getTime()` is `NaN`,
modelled as `none`) cannot crash the countdown: the `NaN` difference fails the
`difference > 0` comparison and the result is exactly {0, 0, 0, 0}. -/
theorem calculateTimeRemaining_nan (now : Int) :
    calculateTimeRemaining none now = { weeks := 0, days := 0, hours := 0, minutes := 0 } := rfl

/-- C5: whenever the enrollment request fails — the promise rejects or the
response carries an error — `fetchEnrollments` catches it, writes one entry to
the console log, leaves the enrollment list empty (from the initial state),
clears the loading flag and returns normally (the embedding is total: nothing
propagates, nothing retries); the visible fields (`enrollments`,
`coursesLoading`) coincide with those of a successful fetch of zero records. -/
theorem fetchEnrollments_failure (r : FetchResult) (h : r.isFailure = true) :
    (fetchEnrollments r initialDashboardState).enrollments = [] ∧
    (fetchEnrollments r initialDashboardState).coursesLoading = false ∧
    (fetchEnrollments r initialDashboardState).consoleLog.length = 1 ∧
    (fetchEnrollments r initialDashboardState).enrollments =
      (fetchEnrollments (.resolved { data := some [], error := none })
        initialDashboardState).enrollments ∧
    (fetchEnrollments r initialDashboardState).coursesLoading =
      (fetchEnrollments (.resolved { data := some [], error := none })
        initialDashboardState).coursesLoading := by
  cases r with
  | rejected e => simp [fetchEnrollments, fetchBody, initialDashboardState]
  | resolved resp =>
    obtain ⟨d, err⟩ := resp
    cases err with
    | none => simp [FetchResult.isFailure] at h
    | some e => simp [fetchEnrollments, fetchBody, initialDashboardState]

/-- Witness for `fetchEnrollments_failure` on a rejected promise. -/
theorem fetchEnrollments_failure_witness :
    (FetchResult.rejected "network error").isFailure = true ∧
    (fetchEnrollments (.rejected "network error") initialDashboardState).enrollments = [] :=
  ⟨rfl, (fetchEnrollments_failure (.rejected "network error") rfl).1⟩

/-- C6: on a successful response, `fetchEnrollments` replaces the page's
enrollment list with exactly the returned record sequence (`setEnrollments
(data || [])` — no re-sorting), and with `[]` when the service returns a null
result. -/
theorem fetchEnrollments_success (l : List Enrollment) (s : DashboardState) :
    (fetchEnrollments (.resolved { data := some l, error := none }) s).enrollments = l ∧
    (fetchEnrollments (.resolved { data := none, error := none }) s).enrollments = [] := by
  constructor <;> simp [fetchEnrollments, fetchBody]

/-- C10: the fetch is atomic with respect to page state: on any failing
outcome `setEnrollments` is never invoked (the invocation counter is
unchanged), so the enrollment list retains exactly its prior value; among the
state cells only the loading flag changes, set to `false` by the `finally`. -/
theorem fetchEnrollments_failure_atomic (r : FetchResult) (s : DashboardState)
    (h : r.isFailure = true) :
    (fetchEnrollments r s).setEnrollmentsCalls = s.setEnrollmentsCalls ∧
    (fetchEnrollments r s).enrollments = s.enrollments ∧
    (fetchEnrollments r s).coursesLoading = false := by
  cases r with
  | rejected e => simp [fetchEnrollments, fetchBody]
  | resolved resp =>
    obtain ⟨d, err⟩ := resp
    cases err with
    | none => simp [FetchResult.isFailure] at h
    | some e => simp [fetchEnrollments, fetchBody]

/-- Witness for `fetchEnrollments_failure_atomic` on a response whose `error`
field is non-null. -/
theorem fetchEnrollments_failure_atomic_witness :
    (FetchResult.resolved { data := none, error := some "service error" }).isFailure = true ∧
    (fetchEnrollments (.resolved { data := none, error := some "service error" })
        initialDashboardState).setEnrollmentsCalls = initialDashboardState.setEnrollmentsCalls :=
  ⟨rfl, (fetchEnrollments_failure_atomic
    (.resolved { data := none, error := some "service error" }) initialDashboardState rfl).1⟩

/-- After `clearInterval` the timer callback never runs again: a cleared
timer is inert under any number of firings. -/
theorem fireN_cleared (endTime : Option Int) (s : CardSim) (n : Nat) :
    fireN endTime n (unmountCard s) = unmountCard s := by
  induction n with
  | zero => rfl
  | succ n ih =>
    show fireTimer endTime (fireN endTime n (unmountCard s)) = unmountCard s
    rw [ih]
    simp [fireTimer, unmountCard]

/-- C7: unmounting a card runs the effect cleanup, which cancels the interval
(`timer = none`); from then on no firing ever recomputes the countdown — the
state, and in particular the recorded computation instants, never change
again, for every number of subsequent firings. -/
theorem card_unmount_cancels (endTime : Option Int) (s : CardSim) (n : Nat) :
    (unmountCard s).timer = none ∧
    fireN endTime n (unmountCard s) = unmountCard s ∧
    (fireN endTime n (unmountCard s)).computeTimes = s.computeTimes := by
  refine ⟨rfl, fireN_cleared endTime s n, ?_⟩
  rw [fireN_cleared endTime s n]
  rfl

/-- On a state whose timer is armed with period `p` and next firing `nf`,
`n` firings append the arithmetic progression `nf, nf+p, …` to the recorded
computation instants and leave the timer armed for `nf + p·n`. -/
theorem fireN_armed (endTime : Option Int) (p nf : Nat) (n : Nat) (s : CardSim)
    (h : s.timer = some { period := p, nextFire := nf }) :
    (fireN endTime n s).computeTimes =
      s.computeTimes ++ (List.range n).map (fun k => nf + p * k) ∧
    (fireN endTime n s).timer = some { period := p, nextFire := nf + p * n } := by
  induction n with
  | zero => simp [fireN, h]
  | succ n ih =>
    obtain ⟨hct, htm⟩ := ih
    constructor
    · show (fireTimer endTime (fireN endTime n s)).computeTimes = _
      simp only [fireTimer, htm, hct, List.range_succ, List.map_append, List.map_cons,
        List.map_nil, List.append_assoc]
    · show (fireTimer endTime (fireN endTime n s)).timer = _
      simp only [fireTimer, htm]
      congr 1
      dsimp only
      congr 1
      ring

/-- C8: for every card, the first countdown computation happens at the mount
instant `t0` itself, strictly before every interval-driven recomputation;
after `n` firings the recorded computation instants are exactly
`t0, t0+60000, t0+2·60000, …` — one per 60000 ms period — and the interval is
still armed for `t0 + 60000·(n+1)`, so the ticking continues indefinitely
while the card is mounted. -/
theorem card_first_compute_then_ticks (endTime : Option Int) (t0 n : Nat) :
    (fireN endTime n (mountCard endTime t0)).computeTimes =
      t0 :: (List.range n).map (fun k => t0 + 60000 + 60000 * k) ∧
    (fireN endTime n (mountCard endTime t0)).timer =
      some { period := 60000, nextFire := t0 + 60000 + 60000 * n } ∧
    (∀ t ∈ (List.range n).map (fun k => t0 + 60000 + 60000 * k), t0 < t) := by
  have h := fireN_armed endTime 60000 (t0 + 60000) n (mountCard endTime t0) rfl
  refine ⟨?_, ?_, ?_⟩
  · rw [h.1]
    simp [mountCard]
  · exact h.2
  · intro t ht
    simp only [List.mem_map, List.mem_range] at ht
    obtain ⟨k, _, hk⟩ := ht
    omega

/-- Witness for `card_first_compute_then_ticks` at mount instant 0 with two
firings: computations at 0 (initial), 60000 and 120000. -/
theorem card_first_compute_then_ticks_witness :
    (fireN none 2 (mountCard none 0)).computeTimes = [0, 60000, 120000] := by
  have h := (card_first_compute_then_ticks none 0 2).1
  rw [h]
  rfl
